import Mathlib

/-!
Shallow embedding of the worldsim-backend simulation core
(`app/core/resources.py`, `app/simulation/engine.py`, `app/agents/rl_agent.py`).

Conventions:
- Python floats are embedded as rationals (ℚ); Python ints as ℤ/ℕ.
- `int(x)` (truncation toward zero) is embedded as `intTrunc`.
- All randomness is externalized: random draws (numpy global generator,
  Python `random` module) appear as explicit oracle arguments, so functions
  are parametric in the values the generators would produce.
- Wall-clock timestamps (`datetime.now()`) are omitted from the state they
  decorate; they carry no decision logic.
- Mutating Python methods are embedded as state-returning functions.
-/

/-- Truncation toward zero of a rational, the meaning of Python `int(x)`
applied to a float. -/
def intTrunc (q : ℚ) : ℤ := if 0 ≤ q then ⌊q⌋ else ⌈q⌉

/-- `ResourcePool` dataclass from `app/core/resources.py`: four stocks and
four per-stock capacity fields. -/
structure ResourcePool where
  water : ℚ
  food : ℚ
  energy : ℚ
  land : ℚ
  max_water : ℚ
  max_food : ℚ
  max_energy : ℚ
  max_land : ℚ
deriving DecidableEq

/-- `ResourcePool.__post_init__` together with the dataclass default caps
(2000/2000/2000/1000): construction clamps each stock from above by its cap
via `min`; there is no lower clamp. -/
def mkResourcePool (w f e l : ℚ) : ResourcePool :=
  { water := min w 2000, food := min f 2000, energy := min e 2000,
    land := min l 1000,
    max_water := 2000, max_food := 2000, max_energy := 2000, max_land := 1000 }

/-- `ResourcePool.deplete`: every call assigns all four stocks
`max(0, stock - amount)` (amounts default to 0 in Python, so an omitted
argument is an explicit 0 here). -/
def ResourcePool.deplete (p : ResourcePool) (w f e l : ℚ) : ResourcePool :=
  { p with
    water := max 0 (p.water - w),
    food := max 0 (p.food - f),
    energy := max 0 (p.energy - e),
    land := max 0 (p.land - l) }

/-- `ResourcePool.replenish`: every call assigns all four stocks
`min(max_stock, stock + amount)`. -/
def ResourcePool.replenish (p : ResourcePool) (w f e l : ℚ) : ResourcePool :=
  { p with
    water := min p.max_water (p.water + w),
    food := min p.max_food (p.food + f),
    energy := min p.max_energy (p.energy + e),
    land := min p.max_land (p.land + l) }

/-- The resource dictionary produced by `ResourcePool.get_as_dict`. -/
structure RDict where
  water : ℚ
  food : ℚ
  energy : ℚ
  land : ℚ
deriving DecidableEq

/-- `ResourcePool.get_as_dict`. -/
def ResourcePool.get_as_dict (p : ResourcePool) : RDict :=
  ⟨p.water, p.food, p.energy, p.land⟩

/-- `RegionState` dataclass from `app/core/resources.py` (the trade-partner
map is a list of (region id, strength) pairs). -/
structure RegionState where
  region_id : String
  name : String
  resources : ResourcePool
  population : ℤ
  development_level : ℚ
  growth_rate : ℚ
  stability : ℚ
  trade_partners : List (String × ℚ)
  temperature : ℚ
  rainfall : ℚ
  disaster_risk : ℚ
deriving DecidableEq

/-- The fixed catalog of event kinds (keys of `ClimaticEvent.EVENT_TYPES`). -/
inductive EventType where
  | drought
  | flood
  | heatwave
  | coldsnap
  | harvest
  | plague
deriving DecidableEq

/-- `ClimaticEvent` (the `datetime.now()` timestamp field is omitted). -/
structure ClimaticEvent where
  event_type : EventType
  affected_regions : List String
  severity : ℚ
deriving DecidableEq

/-- `ClimaticEvent.apply`: a region not in `affected_regions` is returned
unchanged with an empty effects map.  Otherwise the catalog deltas are
applied in dict-insertion order, each resource set to
`max(0, current + change * severity)` and recorded in the effects list; a
`population_loss` fraction truncates `population * (1 - f * severity)` to an
integer and records nothing.  The catalog's `description` entries name no
resource attribute and are skipped, as in the source. -/
def applyEvent (ev : ClimaticEvent) (r : RegionState) :
    RegionState × List (String × ℚ) :=
  if r.region_id ∈ ev.affected_regions then
    match ev.event_type with
    | .drought =>
        let res := r.resources
        let res := { res with water := max 0 (res.water + (-500) * ev.severity) }
        let res := { res with food := max 0 (res.food + (-300) * ev.severity) }
        ({ r with resources := res },
         [("water", (-500) * ev.severity), ("food", (-300) * ev.severity)])
    | .flood =>
        let res := r.resources
        let res := { res with water := max 0 (res.water + 200 * ev.severity) }
        let res := { res with food := max 0 (res.food + (-200) * ev.severity) }
        let res := { res with land := max 0 (res.land + (-100) * ev.severity) }
        ({ r with resources := res },
         [("water", 200 * ev.severity), ("food", (-200) * ev.severity),
          ("land", (-100) * ev.severity)])
    | .heatwave =>
        let res := r.resources
        let res := { res with energy := max 0 (res.energy + (-200) * ev.severity) }
        let res := { res with food := max 0 (res.food + (-150) * ev.severity) }
        ({ r with resources := res },
         [("energy", (-200) * ev.severity), ("food", (-150) * ev.severity)])
    | .coldsnap =>
        let res := r.resources
        let res := { res with energy := max 0 (res.energy + (-400) * ev.severity) }
        let res := { res with food := max 0 (res.food + (-100) * ev.severity) }
        ({ r with resources := res },
         [("energy", (-400) * ev.severity), ("food", (-100) * ev.severity)])
    | .harvest =>
        let res := r.resources
        let res := { res with food := max 0 (res.food + 300 * ev.severity) }
        ({ r with resources := res }, [("food", 300 * ev.severity)])
    | .plague =>
        ({ r with population :=
            intTrunc ((r.population : ℚ) * (1 - (1/10) * ev.severity)) }, [])
  else (r, [])

/-- `TradeNetwork.execute_trade`: sequential unclamped field updates on the
two region states, in source order (`trade_amount = strength * 50`; A gives
food, B gives energy).  The trade-history entry holds only ids, strength and
a wall-clock timestamp and is omitted; the Python method mutates the states
in place and returns `({}, {})`, embedded here as returning the two updated
states. -/
def execute_trade (a b : RegionState) (strength : ℚ) :
    RegionState × RegionState :=
  let t := strength * 50
  let a := { a with resources := { a.resources with food := a.resources.food - t } }
  let b := { b with resources := { b.resources with energy := b.resources.energy - t * (8/10) } }
  let b := { b with resources := { b.resources with energy := b.resources.energy + t * (9/10) } }
  let a := { a with resources := { a.resources with food := a.resources.food + t * (8/10) } }
  (a, b)

/-- One entry of `RegionalAgent.ACTIONS`: the keys `step()` reads.  The
`trade_intensity`, `conservation` and `passive` keys are never read by the
engine and are omitted. -/
structure ActionEffects where
  name : String
  water : Option ℚ
  food : Option ℚ
  energy : Option ℚ
  growth : Option ℚ
  pop_growth : Option ℚ
  dev_increase : Option ℚ
deriving DecidableEq

/-- `RegionalAgent.ACTIONS`: the fixed 9-entry action catalog.  Indices
outside 0..8 never arise (`act` returns an index below `action_size = 9`);
the catch-all maps them to the passive entry. -/
def ACTIONS : ℕ → ActionEffects
  | 0 => ⟨"Invest in Food", some (-50), some 100, some (-20), none, none, none⟩
  | 1 => ⟨"Invest in Energy", some (-30), some (-20), some 150, none, none, none⟩
  | 2 => ⟨"Invest in Water", some 200, some (-50), some (-50), none, none, none⟩
  | 3 => ⟨"Increase Production", none, none, some (-100), none, some (1/20), none⟩
  | 4 => ⟨"Trade (Aggressive)", none, none, some (-30), none, none, none⟩
  | 5 => ⟨"Trade (Moderate)", none, none, some (-15), none, none, none⟩
  | 6 => ⟨"Conserve Resources", none, none, none, some (-1/50), none, none⟩
  | 7 => ⟨"Invest in Development", none, none, some (-80), none, none, some (1/20)⟩
  | _ => ⟨"Do Nothing", none, none, none, none, none, none⟩

/-- The action-effect application block of `WorldSimulation.step` (lines
238-249): each present resource key is applied through a separate
`deplete` call with the negated amount; `growth` adds to `growth_rate`;
`pop_growth` truncates `population * (1 + pg)`; `dev_increase` is capped at
1.0 by `min`. -/
def applyActionEffects (a : ActionEffects) (r : RegionState) : RegionState :=
  let r := match a.water with
    | some w => { r with resources := r.resources.deplete (-w) 0 0 0 }
    | none => r
  let r := match a.food with
    | some f => { r with resources := r.resources.deplete 0 (-f) 0 0 }
    | none => r
  let r := match a.energy with
    | some e => { r with resources := r.resources.deplete 0 0 (-e) 0 }
    | none => r
  let r := match a.growth with
    | some g => { r with growth_rate := r.growth_rate + g }
    | none => r
  let r := match a.pop_growth with
    | some pg => { r with population := intTrunc ((r.population : ℚ) * (1 + pg)) }
    | none => r
  match a.dev_increase with
    | some d => { r with development_level := min 1 (r.development_level + d) }
    | none => r

/-- `WorldSimulation._update_basic_resources`: replenish water by
rainfall×5, replenish food by development×population×2, deplete energy by
population×5, then adjust population (grow by `growth_rate` when food
exceeds population×8, shrink by 2% when food is below population×3, else
unchanged; both truncated to an integer). -/
def updateBasicResources (r : RegionState) : RegionState :=
  let res := r.resources.replenish (r.rainfall * 5) 0 0 0
  let res := res.replenish 0 (r.development_level * (r.population : ℚ) * 2) 0 0
  let res := res.deplete 0 0 ((r.population : ℚ) * 5) 0
  let pop :=
    if (r.population : ℚ) * 8 < res.food then
      intTrunc ((r.population : ℚ) * (1 + r.growth_rate))
    else if res.food < (r.population : ℚ) * 3 then
      intTrunc ((r.population : ℚ) * (98/100))
    else r.population
  { r with resources := res, population := pop }

/-- One replay-buffer entry of `DQNAgent` (state, action, reward,
next_state, done). -/
structure Transition where
  state : List ℚ
  action : ℕ
  reward : ℚ
  next_state : List ℚ
  done : Bool
deriving DecidableEq

/-- `DQNAgent` state.  `q_values` is the per-action value list, `memory`
the bounded replay deque, `loss_history` the recorded average losses. -/
structure DQN where
  state_size : ℕ
  action_size : ℕ
  learning_rate : ℚ
  gamma : ℚ
  epsilon : ℚ
  epsilon_decay : ℚ
  epsilon_min : ℚ
  q_values : List ℚ
  memory : List Transition
  loss_history : List ℚ
deriving DecidableEq

/-- `DQNAgent.__init__` with the engine's arguments
(`state_size=12, action_size=9`, default learning rate 0.01): ε = 1.0,
decay 0.995, floor 0.01, γ = 0.95, empty memory and loss history.  `q0`
stands for the `np.random.randn(9) * 0.01` initialization draw. -/
def initDQN (q0 : List ℚ) : DQN :=
  { state_size := 12, action_size := 9, learning_rate := 1/100,
    gamma := 19/20, epsilon := 1, epsilon_decay := 199/200,
    epsilon_min := 1/100, q_values := q0, memory := [], loss_history := [] }

/-- `DQNAgent.remember`: append to the replay deque; `deque(maxlen=2000)`
drops the oldest entry when full. -/
def remember (a : DQN) (t : Transition) : DQN :=
  { a with memory :=
      if a.memory.length < 2000 then a.memory ++ [t] else a.memory.tail ++ [t] }

/-- `np.max` over a nonempty list (the empty case never arises:
`q_values` has length `action_size = 9`). -/
def npMaxList : List ℚ → ℚ
  | [] => 0
  | x :: xs => xs.foldl max x

/-- `np.argmax`: index of the first maximal element. -/
def argmaxAux : ℕ → ℚ → ℕ → List ℚ → ℕ
  | bi, _, _, [] => bi
  | bi, bv, i, x :: xs =>
      if bv < x then argmaxAux i x (i + 1) xs else argmaxAux bi bv (i + 1) xs

/-- `np.argmax` over a list (0 on the empty list, which never arises). -/
def argmaxIdx : List ℚ → ℕ
  | [] => 0
  | x :: xs => argmaxAux 0 x 1 xs

/-- `DQNAgent.act`: with the exploration branch taken when `training` and
the numpy draw is below ε, the result is `random.randint(0, action_size-1)`
— a draw from Python's process-global, never-seeded `random` module,
externalized as the oracle argument `pyDraw`.  Otherwise the greedy branch
returns `argmax(q_values + sum(state) * 0.1)`. -/
def act (a : DQN) (state : List ℚ) (training : Bool) (npDraw : ℚ)
    (pyDraw : ℕ) : ℕ :=
  if training ∧ npDraw < a.epsilon then pyDraw
  else argmaxIdx (a.q_values.map (fun v => v + state.sum * (1/10)))

/-- `DQNAgent.replay`: returns `(agent, 0.0)` untouched when the buffer
holds fewer than `batch_size` transitions.  Otherwise processes the
uniformly sampled batch (`random.sample`, externalized as the `batch`
argument) sequentially against the live value list, appends the average
absolute TD error to the loss history, and decays ε by `epsilon_decay`
when ε is above `epsilon_min`. -/
def replay (a : DQN) (batch_size : ℕ) (batch : List Transition) : DQN × ℚ :=
  if a.memory.length < batch_size then (a, 0)
  else
    let qLoss := batch.foldl
      (fun (acc : List ℚ × ℚ) t =>
        let target :=
          if t.done then t.reward
          else t.reward + a.gamma *
            npMaxList (acc.1.map (fun v => v + t.next_state.sum * (1/10)))
        let old_q := acc.1.getD t.action 0
        (acc.1.set t.action (old_q + a.learning_rate * (target - old_q)),
         acc.2 + |target - old_q|))
      (a.q_values, 0)
    let avg_loss := qLoss.2 / (batch_size : ℚ)
    let eps :=
      if a.epsilon_min < a.epsilon then a.epsilon * a.epsilon_decay
      else a.epsilon
    ({ a with q_values := qLoss.1,
              loss_history := a.loss_history ++ [avg_loss],
              epsilon := eps }, avg_loss)

/-- A sequence of `replay` calls, each given its batch-size argument and
the batch the sampler would draw. -/
def runReplays : DQN → List (ℕ × List Transition) → DQN
  | a, [] => a
  | a, (b, s) :: rest => runReplays (replay a b s).1 rest

/-- The ε update a training `replay` call performs, at the field values set
by `__init__` (`epsilon_min = 0.01`, `epsilon_decay = 0.995`). -/
def decayStep (e : ℚ) : ℚ := if 1/100 < e then e * (199/200) else e

/-- `RegionalAgent.calculate_reward`: `np.clip(x, lo, hi)`. -/
def clip (x lo hi : ℚ) : ℚ := max lo (min x hi)

/-- `RegionalAgent.calculate_reward` from `app/agents/rl_agent.py`
(`prev_resources` is accepted and unused, as in the source). -/
def calculate_reward (prev curr : RDict) (stability : ℚ) (population : ℤ) : ℚ :=
  let resource_health :=
    (curr.water / 2000 + curr.food / 2000 + curr.energy / 2000) / 3
  let stability_reward := stability * 2
  let pop_reward := min ((population : ℚ) / 500) 1 * (1/2)
  let starvation_penalty : ℚ := if curr.food < 100 then -5 else 0
  let starvation_penalty :=
    if curr.energy < 100 then starvation_penalty - 3 else starvation_penalty
  let _ := prev
  clip (resource_health * 3 + stability_reward + pop_reward + starvation_penalty)
    (-10) 10

/-- The reward formula as the specification states it (for comparison with
`calculate_reward`): `resource_health×3 + stability×2 +
min(population/500,1)×0.5 + starvation_penalty`, the penalty being −5 if
food<100 plus an additional −3 if energy<100, clamped to [−10, 10]. -/
def rewardSpec (curr : RDict) (stability : ℚ) (population : ℤ) : ℚ :=
  let resource_health :=
    (curr.water / 2000 + curr.food / 2000 + curr.energy / 2000) / 3
  let penalty :=
    (if curr.food < 100 then (-5 : ℚ) else 0) +
    (if curr.energy < 100 then (-3 : ℚ) else 0)
  max (-10) (min (resource_health * 3 + stability * 2 +
    min ((population : ℚ) / 500) 1 * (1/2) + penalty) 10)

/-- One cycle report (`cycle_data` built by `step()`); the
`datetime.now().isoformat()` timestamp is omitted. -/
structure CycleData where
  cycle : ℕ
  regions : List (String × RegionState)
  events : List (EventType × List String × ℚ)
  actions : List (String × String × ℚ)
deriving DecidableEq

/-- `WorldSimulation` state (regions in dict-insertion order; agents are
not reached by `step()` before it raises, see `step`). -/
structure World where
  num_regions : ℕ
  current_cycle : ℕ
  regions : List RegionState
  event_history : List ClimaticEvent
  cycle_history : List CycleData
deriving DecidableEq

/-- The random draws one `step()` call consumes, externalized: the outcome
of `_generate_climatic_event` and the per-region chosen action indices. -/
structure StepRand where
  event : Option ClimaticEvent
  actions : List ℕ
deriving DecidableEq

/-- `WorldSimulation.step`.  Phases, as in the source: natural dynamics for
every region, then the optional climatic event.  The per-region agent loop
then evaluates `region.is_critical()` in its first iteration — but
`RegionState` defines no `is_critical` attribute (only `ResourcePool`
does), so execution raises `AttributeError` there for every nonempty
region list; the `Except.error` value carries the partially mutated
simulation state Python leaves behind (resource/event updates applied, the
first region's action effects applied, counter and history untouched).
Only a world with zero regions reaches the trade loop, the history append
and the counter increment. -/
def step (w : World) (rand : StepRand) : Except World (World × CycleData) :=
  let regions1 := w.regions.map updateBasicResources
  let stage2 :=
    match rand.event with
    | some ev =>
        (regions1.map (fun r => (applyEvent ev r).1), w.event_history ++ [ev],
         [(ev.event_type, ev.affected_regions, ev.severity)])
    | none => (regions1, w.event_history, ([] : List (EventType × List String × ℚ)))
  match stage2 with
  | (regions2, evHist, cycEvents) =>
    match regions2 with
    | [] =>
        let cd : CycleData := ⟨w.current_cycle, [], cycEvents, []⟩
        .ok ({ w with
                regions := []
                event_history := evHist
                cycle_history := w.cycle_history ++ [cd]
                current_cycle := w.current_cycle + 1 }, cd)
    | r0 :: rest =>
        let r0 := applyActionEffects (ACTIONS (rand.actions.headD 8)) r0
        .error { w with regions := r0 :: rest, event_history := evHist }

/-- The resource-ledger invariant the specification asserts: every stock in
[0, its cap]. -/
def poolInv (p : ResourcePool) : Prop :=
  0 ≤ p.water ∧ p.water ≤ p.max_water ∧
  0 ≤ p.food ∧ p.food ≤ p.max_food ∧
  0 ≤ p.energy ∧ p.energy ≤ p.max_energy ∧
  0 ≤ p.land ∧ p.land ≤ p.max_land

/-- The lower half of the ledger invariant: every stock non-negative. -/
def nonnegStocks (p : ResourcePool) : Prop :=
  0 ≤ p.water ∧ 0 ≤ p.food ∧ 0 ≤ p.energy ∧ 0 ≤ p.land

/-- A region as `_initialize_world` shapes it (concrete values within the
generator ranges: defaults `growth_rate = 0.02`, `stability = 0.8`,
`disaster_risk = 0.05`). -/
def baseRegion : RegionState :=
  { region_id := "region_0", name := "Northern Plains",
    resources := mkResourcePool 1000 1000 1000 1000,
    population := 100, development_level := 1/2, growth_rate := 1/50,
    stability := 4/5, trade_partners := [], temperature := 20,
    rainfall := 100, disaster_risk := 1/20 }

/-- Concrete trading partner A with an in-range ledger whose food stock is
0 (the lower bound of the invariant). -/
def tradeRegionA : RegionState :=
  { baseRegion with resources := mkResourcePool 1000 0 1000 1000 }

/-- Concrete trading partner B with an in-range ledger whose energy stock
sits exactly at its cap. -/
def tradeRegionB : RegionState :=
  { baseRegion with
    region_id := "region_1"
    name := "Forest Kingdom"
    resources := mkResourcePool 1000 1000 2000 1000 }

/-- Concrete region for the population counterexample: plentiful food so
the growth branch of the population update is taken. -/
def popCexRegion : RegionState :=
  { baseRegion with resources := mkResourcePool 1000 1900 1000 1000 }

/-- A concrete replay-buffer transition. -/
def cexTransition : Transition := ⟨[], 0, 0, [], true⟩

/-- A freshly initialized agent holding one remembered transition, so that
`replay` with batch size 1 takes its training branch. -/
def cexAgent : DQN := remember (initDQN (List.replicate 9 0)) cexTransition

/-- A one-region world in its initial configuration. -/
def oneRegionWorld : World :=
  { num_regions := 1, current_cycle := 0, regions := [baseRegion],
    event_history := [], cycle_history := [] }

/-- Step oracle: no climatic event generated, agent draws action 8. -/
def quietRand : StepRand := ⟨none, [8]⟩

/-- Concrete climatic event affecting only `region_1`. -/
def droughtOnR1 : ClimaticEvent := ⟨.drought, ["region_1"], 1⟩

/-- Concrete plague event affecting `region_0`, severity within the
generator range [0.5, 1.5]. -/
def plagueOnR0 : ClimaticEvent := ⟨.plague, ["region_0"], 1⟩

/-- The region obtained from `popCexRegion` after the agent picks the
Conserve Resources action (index 6, `growth := -0.02`) in `n` successive
cycles; each application runs the action-effect block of `step()`. -/
def conserveTimes (n : ℕ) : RegionState :=
  (applyActionEffects (ACTIONS 6))^[n] popCexRegion

/-- The ε-related facts that hold of every agent reachable from `initDQN`
by `replay` calls: the `__init__` constants and ε ∈ [0.00995, 1]. -/
def epsInvariant (a : DQN) : Prop :=
  a.epsilon_min = 1/100 ∧ a.epsilon_decay = 199/200 ∧
  199/20000 ≤ a.epsilon ∧ a.epsilon ≤ 1

/-! ## Helper lemmas -/

/-- Truncation toward zero of a non-negative rational is non-negative. -/
theorem intTrunc_nonneg {q : ℚ} (h : 0 ≤ q) : 0 ≤ intTrunc q := by
  unfold intTrunc
  rw [if_pos h]
  exact Int.le_floor.mpr (by exact_mod_cast h)

/-- Every `deplete` call leaves all four stocks non-negative,
whatever the amounts (each stock is assigned `max 0 _`). -/
theorem deplete_nonneg (p : ResourcePool) (w f e l : ℚ) :
    nonnegStocks (p.deplete w f e l) :=
  ⟨le_max_left _ _, le_max_left _ _, le_max_left _ _, le_max_left _ _⟩

/-- After 918 decays ε is still above the floor 0.01. -/
theorem pow918_gt : (1 : ℚ)/100 < (199/200)^918 := by norm_num

/-- After 919 decays ε is strictly below the floor 0.01. -/
theorem pow919_lt : ((199 : ℚ)/200)^919 < 1/100 := by norm_num

/-! ## Claim theorems -/

/-- C10: `ResourcePool` construction clamps each stock from above to its
cap (water, food, energy to 2000; land to 1000) and performs no lower
clamping: a negative initial stock value survives construction. -/
theorem resource_pool_init_upper_clamp_only (w f e l : ℚ) :
    (mkResourcePool w f e l).water = min w 2000 ∧
    (mkResourcePool w f e l).food = min f 2000 ∧
    (mkResourcePool w f e l).energy = min e 2000 ∧
    (mkResourcePool w f e l).land = min l 1000 ∧
    (w < 0 → (mkResourcePool w f e l).water = w) ∧
    (f < 0 → (mkResourcePool w f e l).food = f) ∧
    (e < 0 → (mkResourcePool w f e l).energy = e) ∧
    (l < 0 → (mkResourcePool w f e l).land = l) := by
  refine ⟨rfl, rfl, rfl, rfl, ?_, ?_, ?_, ?_⟩ <;> intro h <;>
    exact min_eq_left (by linarith)

/-- C10 witness: constructing with stocks (-5, 3000, 100, -2) keeps the
negative water at -5 (no lower clamp) while food is capped at 2000. -/
theorem resource_pool_init_upper_clamp_only_witness :
    (-5 : ℚ) < 0 ∧ (mkResourcePool (-5) 3000 100 (-2)).water = -5 ∧
    (mkResourcePool (-5) 3000 100 (-2)).food = min 3000 2000 :=
  ⟨by norm_num,
   (resource_pool_init_upper_clamp_only (-5) 3000 100 (-2)).2.2.2.2.1 (by norm_num),
   (resource_pool_init_upper_clamp_only (-5) 3000 100 (-2)).2.1⟩

/-- C6: `execute_trade` with `trade_amount = strength×50` changes region
A's food by net −0.2×trade_amount and region B's energy by net
+0.1×trade_amount; with strength = 0.5 this is exactly −5 food for A and
+2.5 energy for B. -/
theorem execute_trade_net_deltas (a b : RegionState) (s : ℚ) :
    ((execute_trade a b s).1).resources.food
      = a.resources.food - (2/10) * (s * 50) ∧
    ((execute_trade a b s).2).resources.energy
      = b.resources.energy + (1/10) * (s * 50) ∧
    ((execute_trade a b (1/2)).1).resources.food = a.resources.food - 5 ∧
    ((execute_trade a b (1/2)).2).resources.energy
      = b.resources.energy + 5/2 := by
  refine ⟨?_, ?_, ?_, ?_⟩ <;> simp only [execute_trade] <;> ring

/-- C5: `calculate_reward` computes exactly the specification formula
(`rewardSpec`) and its value always lies in [−10, 10], for all inputs. -/
theorem calculate_reward_spec_and_bounds (prev curr : RDict) (st : ℚ)
    (pop : ℤ) :
    calculate_reward prev curr st pop = rewardSpec curr st pop ∧
    -10 ≤ calculate_reward prev curr st pop ∧
    calculate_reward prev curr st pop ≤ 10 := by
  refine ⟨?_, ?_, ?_⟩
  · simp only [calculate_reward, rewardSpec, clip]
    split_ifs <;> ring_nf
  · exact le_max_left _ _
  · exact max_le (by norm_num) (min_le_right _ _)

/-- C7: whenever the replay buffer holds fewer than `batch_size`
transitions, `replay` returns the agent completely unchanged together with
loss 0.0 (so ε, the action-value estimates and the loss history are all
untouched), whatever batch the sampler would have produced. -/
theorem replay_noop_small_buffer (a : DQN) (batch_size : ℕ)
    (batch : List Transition) (h : a.memory.length < batch_size) :
    replay a batch_size batch = (a, 0) := by
  simp only [replay, if_pos h]

/-- C7 witness: a freshly initialized agent has an empty buffer, so
`replay` with batch size 32 is a no-op with loss 0. -/
theorem replay_noop_small_buffer_witness :
    (initDQN []).memory.length < 32 ∧
    replay (initDQN []) 32 [] = (initDQN [], 0) :=
  ⟨by decide, replay_noop_small_buffer (initDQN []) 32 [] (by decide)⟩

/-- C9: applying a `ClimaticEvent` to a region whose id is not in the
event's `affected_regions` list returns the region unchanged and an empty
effects map. -/
theorem apply_unaffected_region_noop (ev : ClimaticEvent) (r : RegionState)
    (h : r.region_id ∉ ev.affected_regions) :
    applyEvent ev r = (r, []) := by
  unfold applyEvent
  rw [if_neg h]

/-- C9 witness: a drought affecting only `region_1` leaves `region_0`
untouched and returns no effects. -/
theorem apply_unaffected_region_noop_witness :
    baseRegion.region_id ∉ droughtOnR1.affected_regions ∧
    applyEvent droughtOnR1 baseRegion = (baseRegion, []) :=
  ⟨by decide, apply_unaffected_region_noop droughtOnR1 baseRegion (by decide)⟩

/-- C1 counterexample: starting from ledgers satisfying the [0, cap]
invariant (A's food at 0, B's energy at its cap), one trade execution at
strength 0.5 leaves A's food at −5 (below 0) and B's energy at 2002.5
(above its cap): trade execution clamps nothing. -/
theorem trade_breaks_stock_bounds :
    poolInv tradeRegionA.resources ∧ poolInv tradeRegionB.resources ∧
    ((execute_trade tradeRegionA tradeRegionB (1/2)).1).resources.food = -5 ∧
    ¬ (0 ≤ ((execute_trade tradeRegionA tradeRegionB (1/2)).1).resources.food) ∧
    ((execute_trade tradeRegionA tradeRegionB (1/2)).2).resources.energy = 4005/2 ∧
    ¬ (((execute_trade tradeRegionA tradeRegionB (1/2)).2).resources.energy ≤
        ((execute_trade tradeRegionA tradeRegionB (1/2)).2).resources.max_energy) := by
  refine ⟨?_, ?_, ?_, ?_, ?_, ?_⟩ <;>
    norm_num [poolInv, tradeRegionA, tradeRegionB, baseRegion, mkResourcePool,
      execute_trade, min_def]

/-- C1 amended: `deplete` and `replenish` with non-negative amounts keep
every stock in [0, its cap]; climatic-event application and the
action-effect block of `step()` keep every stock ≥ 0 (each write clamps
below at 0) but do not enforce the caps; trade execution enforces neither
bound (see the counterexample). -/
theorem clamped_ops_partial_bounds :
    (∀ (p : ResourcePool) (w f e l : ℚ), poolInv p →
      0 ≤ w → 0 ≤ f → 0 ≤ e → 0 ≤ l → poolInv (p.deplete w f e l)) ∧
    (∀ (p : ResourcePool) (w f e l : ℚ), poolInv p →
      0 ≤ w → 0 ≤ f → 0 ≤ e → 0 ≤ l → poolInv (p.replenish w f e l)) ∧
    (∀ (ev : ClimaticEvent) (r : RegionState), nonnegStocks r.resources →
      nonnegStocks ((applyEvent ev r).1).resources) ∧
    (∀ (i : ℕ) (r : RegionState), nonnegStocks r.resources →
      nonnegStocks (applyActionEffects (ACTIONS i) r).resources) := by
  refine ⟨?_, ?_, ?_, ?_⟩
  · intro p w f e l hp hw hf he hl
    obtain ⟨h1, h2, h3, h4, h5, h6, h7, h8⟩ := hp
    simp only [poolInv, ResourcePool.deplete]
    exact ⟨le_max_left _ _, max_le (h1.trans h2) (by linarith),
           le_max_left _ _, max_le (h3.trans h4) (by linarith),
           le_max_left _ _, max_le (h5.trans h6) (by linarith),
           le_max_left _ _, max_le (h7.trans h8) (by linarith)⟩
  · intro p w f e l hp hw hf he hl
    obtain ⟨h1, h2, h3, h4, h5, h6, h7, h8⟩ := hp
    simp only [poolInv, ResourcePool.replenish]
    exact ⟨le_min (h1.trans h2) (by linarith), min_le_left _ _,
           le_min (h3.trans h4) (by linarith), min_le_left _ _,
           le_min (h5.trans h6) (by linarith), min_le_left _ _,
           le_min (h7.trans h8) (by linarith), min_le_left _ _⟩
  · intro ev r h
    obtain ⟨hw, hf, he, hl⟩ := h
    unfold applyEvent
    split
    · cases ev.event_type with
      | drought => exact ⟨le_max_left _ _, le_max_left _ _, he, hl⟩
      | flood => exact ⟨le_max_left _ _, le_max_left _ _, he, le_max_left _ _⟩
      | heatwave => exact ⟨hw, le_max_left _ _, le_max_left _ _, hl⟩
      | coldsnap => exact ⟨hw, le_max_left _ _, le_max_left _ _, hl⟩
      | harvest => exact ⟨hw, le_max_left _ _, he, hl⟩
      | plague => exact ⟨hw, hf, he, hl⟩
    · exact ⟨hw, hf, he, hl⟩
  · intro i r h
    match i with
    | 0 => exact deplete_nonneg _ _ _ _ _
    | 1 => exact deplete_nonneg _ _ _ _ _
    | 2 => exact deplete_nonneg _ _ _ _ _
    | 3 => exact deplete_nonneg _ _ _ _ _
    | 4 => exact deplete_nonneg _ _ _ _ _
    | 5 => exact deplete_nonneg _ _ _ _ _
    | 6 => exact h
    | 7 => exact deplete_nonneg _ _ _ _ _
    | n + 8 => exact h

/-- C1 amended witness: concrete instances of each clause — a default
in-range pool depleted and replenished by 5 stays in range, and the
drought event and Invest-in-Food action keep `baseRegion`'s stocks ≥ 0. -/
theorem clamped_ops_partial_bounds_witness :
    poolInv ((mkResourcePool 1000 1000 1000 1000).deplete 5 5 5 5) ∧
    poolInv ((mkResourcePool 1000 1000 1000 1000).replenish 5 5 5 5) ∧
    nonnegStocks ((applyEvent droughtOnR1 baseRegion).1).resources ∧
    nonnegStocks (applyActionEffects (ACTIONS 0) baseRegion).resources :=
  ⟨clamped_ops_partial_bounds.1 _ 5 5 5 5
     (by norm_num [poolInv, mkResourcePool, min_def])
     (by norm_num) (by norm_num) (by norm_num) (by norm_num),
   clamped_ops_partial_bounds.2.1 _ 5 5 5 5
     (by norm_num [poolInv, mkResourcePool, min_def])
     (by norm_num) (by norm_num) (by norm_num) (by norm_num),
   clamped_ops_partial_bounds.2.2.1 droughtOnR1 baseRegion
     (by norm_num [nonnegStocks, baseRegion, mkResourcePool, min_def]),
   clamped_ops_partial_bounds.2.2.2 0 baseRegion
     (by norm_num [nonnegStocks, baseRegion, mkResourcePool, min_def])⟩

/-- Truncation toward zero of an integer is that integer. -/
theorem intTrunc_intCast (z : ℤ) : intTrunc (z : ℚ) = z := by
  unfold intTrunc
  split_ifs
  · exact Int.floor_intCast z
  · exact Int.ceil_intCast z

/-- The Conserve Resources action only lowers the growth rate by 0.02. -/
theorem conserve_apply (r : RegionState) :
    applyActionEffects (ACTIONS 6) r =
      { r with growth_rate := r.growth_rate + (-1/50) } := rfl

/-- After `n` Conserve Resources actions the region is unchanged except
that the growth rate has dropped by `n`×0.02. -/
theorem conserveTimes_growth (n : ℕ) :
    conserveTimes n =
      { popCexRegion with growth_rate := 1/50 - (n : ℚ) * (1/50) } := by
  induction n with
  | zero =>
      show popCexRegion = _
      have h : (1 : ℚ)/50 - ((0 : ℕ) : ℚ) * (1/50) = popCexRegion.growth_rate := by
        norm_num [popCexRegion, baseRegion]
      rw [h]
  | succ n ih =>
      simp only [conserveTimes] at ih ⊢
      rw [Function.iterate_succ_apply', ih, conserve_apply]
      congr 1
      push_cast
      ring

/-- C4 counterexample: from a freshly generated region (growth rate 0.02),
102 cycles in which the agent picks Conserve Resources (growth −0.02 each)
drive the growth rate to −2.02; the next natural-dynamics update then takes
the growth branch (food is plentiful) and sets
population = int(100 × (1 − 2.02)) = −102 < 0. -/
theorem population_goes_negative :
    popCexRegion.growth_rate = 1/50 ∧ 0 ≤ popCexRegion.population ∧
    (conserveTimes 102).growth_rate = -101/50 ∧
    (updateBasicResources (conserveTimes 102)).population = -102 ∧
    (updateBasicResources (conserveTimes 102)).population < 0 := by
  have h102 := conserveTimes_growth 102
  have hpop : (updateBasicResources (conserveTimes 102)).population = -102 := by
    rw [h102]
    norm_num [updateBasicResources, ResourcePool.replenish, ResourcePool.deplete,
      popCexRegion, baseRegion, mkResourcePool, min_def, max_def]
    rw [(by norm_num : (-102 : ℚ) = ((-102 : ℤ) : ℚ))]
    exact intTrunc_intCast (-102)
  refine ⟨rfl, by norm_num [popCexRegion, baseRegion], ?_, hpop, by rw [hpop]; norm_num⟩
  rw [h102]
  norm_num

/-- C4 amended: population stays non-negative under the natural update
whenever the region's growth rate is ≥ −1, under climatic events of
severity ≤ 10 (the generator draws severities in [0.5, 1.5]), and under
every action effect; but the growth rate is unbounded below, and once
repeated Conserve Resources actions push it under −1 the natural growth
branch produces a negative population (see the counterexample). -/
theorem population_nonneg_bounded_growth :
    (∀ r : RegionState, 0 ≤ r.population → -1 ≤ r.growth_rate →
      0 ≤ (updateBasicResources r).population) ∧
    (∀ (ev : ClimaticEvent) (r : RegionState), 0 ≤ r.population →
      0 ≤ ev.severity → ev.severity ≤ 10 →
      0 ≤ ((applyEvent ev r).1).population) ∧
    (∀ (i : ℕ) (r : RegionState), 0 ≤ r.population →
      0 ≤ (applyActionEffects (ACTIONS i) r).population) := by
  refine ⟨?_, ?_, ?_⟩
  · intro r hp hg
    have hpq : (0 : ℚ) ≤ (r.population : ℚ) := by exact_mod_cast hp
    simp only [updateBasicResources]
    split_ifs with h1 h2
    · exact intTrunc_nonneg (mul_nonneg hpq (by linarith))
    · exact intTrunc_nonneg (mul_nonneg hpq (by norm_num))
    · exact hp
  · intro ev r hp h0 h10
    have hpq : (0 : ℚ) ≤ (r.population : ℚ) := by exact_mod_cast hp
    unfold applyEvent
    split
    · cases ev.event_type with
      | drought => exact hp
      | flood => exact hp
      | heatwave => exact hp
      | coldsnap => exact hp
      | harvest => exact hp
      | plague => exact intTrunc_nonneg (mul_nonneg hpq (by linarith))
    · exact hp
  · intro i r hp
    have hpq : (0 : ℚ) ≤ (r.population : ℚ) := by exact_mod_cast hp
    match i with
    | 0 => exact hp
    | 1 => exact hp
    | 2 => exact hp
    | 3 => exact intTrunc_nonneg (mul_nonneg hpq (by norm_num))
    | 4 => exact hp
    | 5 => exact hp
    | 6 => exact hp
    | 7 => exact hp
    | n + 8 => exact hp

/-- C4 amended witness: concrete instances of each clause at `baseRegion`
(population 100, growth rate 0.02 ≥ −1) and the generated plague event. -/
theorem population_nonneg_bounded_growth_witness :
    0 ≤ (updateBasicResources baseRegion).population ∧
    0 ≤ ((applyEvent plagueOnR0 baseRegion).1).population ∧
    0 ≤ (applyActionEffects (ACTIONS 3) baseRegion).population :=
  ⟨population_nonneg_bounded_growth.1 baseRegion
     (by norm_num [baseRegion]) (by norm_num [baseRegion]),
   population_nonneg_bounded_growth.2.1 plagueOnR0 baseRegion
     (by norm_num [baseRegion]) (by norm_num [plagueOnR0])
     (by norm_num [plagueOnR0]),
   population_nonneg_bounded_growth.2.2 3 baseRegion (by norm_num [baseRegion])⟩

/-- C2: with the numpy-backed draw held fixed (that generator is the one
`WorldSimulation.__init__` seeds), the action `act` returns in its
exploration branch — always taken on a fresh agent, whose ε is 1.0 — is
exactly the draw of Python's process-global `random` module, which no part
of the simulation ever seeds: two different values of that unseeded draw
yield two different actions, so a fixed seed does not reproduce the cycle
sequence. -/
theorem act_depends_on_unseeded_randomness :
    act (initDQN (List.replicate 9 0)) (List.replicate 12 0) true (1/2) 0 = 0 ∧
    act (initDQN (List.replicate 9 0)) (List.replicate 12 0) true (1/2) 1 = 1 ∧
    act (initDQN (List.replicate 9 0)) (List.replicate 12 0) true (1/2) 0 ≠
      act (initDQN (List.replicate 9 0)) (List.replicate 12 0) true (1/2) 1 := by
  have h : ((1 : ℚ)/2) < (initDQN (List.replicate 9 0)).epsilon := by
    norm_num [initDQN]
  have h0 : act (initDQN (List.replicate 9 0)) (List.replicate 12 0) true (1/2) 0 = 0 := by
    unfold act
    rw [if_pos ⟨rfl, h⟩]
  have h1 : act (initDQN (List.replicate 9 0)) (List.replicate 12 0) true (1/2) 1 = 1 := by
    unfold act
    rw [if_pos ⟨rfl, h⟩]
  exact ⟨h0, h1, by rw [h0, h1]; omega⟩

/-- C8: `step()` on any world with at least one region stops with an
`AttributeError` (`RegionState` defines no `is_critical` method; only
`ResourcePool` does), so the cycle counter is not incremented and no cycle
report is appended — whatever the random draws were. -/
theorem step_raises_attribute_error (w : World) (rand : StepRand)
    (h : w.regions ≠ []) :
    ∃ w2, step w rand = .error w2 ∧ w2.current_cycle = w.current_cycle ∧
      w2.cycle_history = w.cycle_history := by
  rcases w with ⟨nr, cc, regs, eh, ch⟩
  rcases rand with ⟨ev, acts⟩
  cases regs with
  | nil => exact absurd rfl h
  | cons r rs =>
      cases ev with
      | none => exact ⟨_, rfl, rfl, rfl⟩
      | some e0 => exact ⟨_, rfl, rfl, rfl⟩

/-- C8 witness: the first `step()` call on a freshly constructed one-region
world raises, leaving the counter and history untouched. -/
theorem step_raises_attribute_error_witness :
    ∃ w2, step oneRegionWorld quietRand = .error w2 ∧
      w2.current_cycle = oneRegionWorld.current_cycle ∧
      w2.cycle_history = oneRegionWorld.cycle_history :=
  step_raises_attribute_error oneRegionWorld quietRand (by simp [oneRegionWorld])

/-- `replay` never changes the replay buffer, the ε floor or the ε decay
factor. -/
theorem replay_preserves_fields (a : DQN) (b : ℕ) (s : List Transition) :
    (replay a b s).1.memory = a.memory ∧
    (replay a b s).1.epsilon_min = a.epsilon_min ∧
    (replay a b s).1.epsilon_decay = a.epsilon_decay := by
  unfold replay
  split
  · exact ⟨rfl, rfl, rfl⟩
  · exact ⟨rfl, rfl, rfl⟩

/-- The ε a `replay` call leaves behind: unchanged on a small buffer,
otherwise decayed once when above the floor. -/
theorem replay_epsilon_eq (a : DQN) (b : ℕ) (s : List Transition) :
    (replay a b s).1.epsilon =
      if a.memory.length < b then a.epsilon
      else if a.epsilon_min < a.epsilon then a.epsilon * a.epsilon_decay
      else a.epsilon := by
  unfold replay
  by_cases h : a.memory.length < b
  · rw [if_pos h, if_pos h]
  · rw [if_neg h, if_neg h]

/-- ε is non-increasing across a single `replay` call (for a non-negative
ε and the constructed decay factor). -/
theorem replay_eps_le (a : DQN) (b : ℕ) (s : List Transition)
    (h0 : 0 ≤ a.epsilon) (hd : a.epsilon_decay = 199/200) :
    (replay a b s).1.epsilon ≤ a.epsilon := by
  rw [replay_epsilon_eq]
  split_ifs with h1 h2
  · exact le_refl _
  · rw [hd]
    exact mul_le_of_le_one_right h0 (by norm_num)
  · exact le_refl _

/-- ε never drops below 0.00995 = ε_min × decay across a `replay` call. -/
theorem replay_eps_lower (a : DQN) (b : ℕ) (s : List Transition)
    (hmin : a.epsilon_min = 1/100) (hd : a.epsilon_decay = 199/200)
    (h : 199/20000 ≤ a.epsilon) :
    199/20000 ≤ (replay a b s).1.epsilon := by
  rw [replay_epsilon_eq]
  split_ifs with h1 h2
  · exact h
  · rw [hd]
    rw [hmin] at h2
    linarith
  · exact h

/-- One `replay` call preserves the reachable-ε invariant. -/
theorem replay_preserves_epsInvariant (a : DQN) (b : ℕ) (s : List Transition)
    (h : epsInvariant a) : epsInvariant (replay a b s).1 := by
  obtain ⟨hmin, hd, hlo, hhi⟩ := h
  refine ⟨?_, ?_, ?_, ?_⟩
  · rw [(replay_preserves_fields a b s).2.1]
    exact hmin
  · rw [(replay_preserves_fields a b s).2.2]
    exact hd
  · exact replay_eps_lower a b s hmin hd hlo
  · exact (replay_eps_le a b s (le_trans (by norm_num) hlo) hd).trans hhi

/-- Any sequence of `replay` calls preserves the reachable-ε invariant. -/
theorem runReplays_epsInvariant (calls : List (ℕ × List Transition)) :
    ∀ a : DQN, epsInvariant a → epsInvariant (runReplays a calls) := by
  induction calls with
  | nil => intro a h; exact h
  | cons c rest ih =>
      intro a h
      rcases c with ⟨b, s⟩
      exact ih _ (replay_preserves_epsInvariant a b s h)

/-- A freshly constructed agent satisfies the reachable-ε invariant. -/
theorem initDQN_epsInvariant (q0 : List ℚ) : epsInvariant (initDQN q0) :=
  ⟨rfl, rfl, by norm_num [initDQN], by norm_num [initDQN]⟩

/-- C3 amended: ε starts at 1.0 and is non-increasing across every
sequence of `replay` calls, but its true lower bound is
ε_min × decay = 0.00995, not ε_min = 0.01: the guard
`if ε > ε_min: ε *= decay` allows exactly one decay past the floor (see
the counterexample). -/
theorem epsilon_decay_bounds (q0 : List ℚ)
    (calls : List (ℕ × List Transition)) :
    (initDQN q0).epsilon = 1 ∧
    199/20000 ≤ (runReplays (initDQN q0) calls).epsilon ∧
    (runReplays (initDQN q0) calls).epsilon ≤ 1 ∧
    ∀ (b : ℕ) (s : List Transition),
      (replay (runReplays (initDQN q0) calls) b s).1.epsilon ≤
        (runReplays (initDQN q0) calls).epsilon := by
  have hinv := runReplays_epsInvariant calls (initDQN q0) (initDQN_epsInvariant q0)
  obtain ⟨hmin, hd, hlo, hhi⟩ := hinv
  exact ⟨rfl, hlo, hhi,
    fun b s => replay_eps_le _ b s (le_trans (by norm_num) hlo) hd⟩

/-- Training `replay` calls on a one-transition buffer iterate `decayStep`
on ε. -/
theorem runReplays_replicate_eps (t : Transition) :
    ∀ (n : ℕ) (a : DQN), a.memory.length = 1 → a.epsilon_min = 1/100 →
      a.epsilon_decay = 199/200 →
      (runReplays a (List.replicate n (1, [t]))).epsilon =
        decayStep^[n] a.epsilon := by
  intro n
  induction n with
  | zero => intro a h1 h2 h3; rfl
  | succ n ih =>
      intro a h1 h2 h3
      rw [List.replicate_succ]
      show (runReplays (replay a 1 [t]).1 (List.replicate n (1, [t]))).epsilon = _
      rw [ih (replay a 1 [t]).1
            (by rw [(replay_preserves_fields a 1 [t]).1]; exact h1)
            (by rw [(replay_preserves_fields a 1 [t]).2.1]; exact h2)
            (by rw [(replay_preserves_fields a 1 [t]).2.2]; exact h3)]
      rw [Function.iterate_succ_apply]
      congr 1
      rw [replay_epsilon_eq, h1, if_neg (by norm_num : ¬ (1 : ℕ) < 1), h2, h3]
      rfl

/-- While ε is above the floor, iterating the decay computes a power of
0.995; this holds up to the 919th step. -/
theorem decay_iter_pow : ∀ n : ℕ, n ≤ 919 →
    decayStep^[n] (1 : ℚ) = (199/200)^n := by
  intro n
  induction n with
  | zero => intro _; simp
  | succ n ih =>
      intro h
      rw [Function.iterate_succ_apply', ih (by omega)]
      have hgt : (1 : ℚ)/100 < (199/200)^n := by
        have h918 : ((199 : ℚ)/200)^918 ≤ (199/200)^n :=
          pow_le_pow_of_le_one (by norm_num) (by norm_num) (by omega)
        exact lt_of_lt_of_le pow918_gt h918
      unfold decayStep
      rw [if_pos hgt, ← pow_succ]

/-- The concrete agent's buffer holds exactly one transition. -/
theorem cexAgent_memory : cexAgent.memory.length = 1 := rfl

/-- C3 counterexample: ε starts at 1.0, but after 919 training replay
calls it is 0.995^919 ≈ 0.009987 < 0.01 = ε_min: the decay guard lets ε
overshoot the floor once, so "ε never falls below 0.01" is false. -/
theorem epsilon_falls_below_min :
    cexAgent.epsilon = 1 ∧
    (runReplays cexAgent (List.replicate 919 (1, [cexTransition]))).epsilon
      < 1/100 := by
  refine ⟨rfl, ?_⟩
  rw [runReplays_replicate_eps cexTransition 919 cexAgent cexAgent_memory rfl rfl]
  have he : cexAgent.epsilon = (1 : ℚ) := rfl
  rw [he, decay_iter_pow 919 le_rfl]
  exact pow919_lt
